import Mathlib

/-!
A shallow embedding of the nutrition aggregation and snapshot engine of the
calorie-tracker web application, together with theorems settling the spec's
claims about it.

Conventions of the embedding:
* JavaScript numbers are modelled as exact rationals (`ℚ`); the linear
  arithmetic performed by the application (sums, products, divisions by
  positive reference amounts) is faithfully captured this way.
* A nullable numeric column (`number | null`) is `Option ℚ`; JavaScript
  truthiness of such a value (`x ? _ : _`) is false exactly on `null` and `0`,
  captured by `jsTruthy`; `x || 0` is captured by `Option.getD x 0`.
* Calendar dates (`YYYY-MM-DD` strings) are modelled as integer day numbers;
  comparing date strings lexicographically coincides with comparing the day
  numbers, and `new Date("YYYY-MM-DD").getTime()` is the day number times
  `86400000` (UTC midnight).
* A database table is a list of rows; an insert appends, an update maps over
  the rows, a filtered delete keeps the non-matching rows, and a PostgREST
  upsert with an `onConflict` key replaces the conflicting row's supplied
  columns (all columns modelled here are supplied by the one upsert call in
  the source).
-/

set_option autoImplicit false

namespace CalorieTracker

/-- JavaScript truthiness of a nullable number: `null` and `0` are falsy. -/
def jsTruthy : Option ℚ → Bool
  | none => false
  | some x => decide (x ≠ 0)

/-- Opaque user identifier used by the concrete examples. -/
def userU : String := "u"

/-- The gram unit string used by the concrete examples. -/
def unitGram : String := "g"

/-- An `ingredients` row as selected by `AddFood.tsx` / `EditFood.tsx`:
reference serving `(serving_amount, serving_unit)` and six nutrient fields,
`sugar` and `fiber` nullable. -/
structure Ingredient where
  id : String
  serving_amount : ℚ
  serving_unit : String
  calories : ℚ
  protein : ℚ
  carbs : ℚ
  sugar : Option ℚ
  fat : ℚ
  fiber : Option ℚ
deriving DecidableEq

/-- A `foods` row as selected by `EditMeal.tsx` / `AddMeal.tsx`: stored
nutrient totals plus the reference serving they are defined per. -/
structure Food where
  id : String
  name : String
  calories : ℚ
  protein : ℚ
  carbs : ℚ
  sugar : Option ℚ
  fat : ℚ
  fiber : Option ℚ
  reference_serving_amount : ℚ
  reference_serving_unit : String
deriving DecidableEq

/-- A `meals` row: stored nutrient totals written by the meal composer. -/
structure Meal where
  id : String
  name : String
  description : Option String
  calories : ℚ
  protein : ℚ
  carbs : ℚ
  sugar : Option ℚ
  fat : ℚ
  fiber : Option ℚ
deriving DecidableEq

/-- One row of the composite-food form state (`FoodIngredient` in
`AddFood.tsx` / `EditFood.tsx`): an ingredient reference with a quantity and
a unit chosen by the user. -/
structure FoodIngredientEntry where
  ingredient_id : String
  quantity : ℚ
  unit : String
deriving DecidableEq

/-- One row of the meal form state (`MealFood` in `EditMeal.tsx`). -/
structure MealFoodEntry where
  food_id : String
  quantity : ℚ
  unit : String
deriving DecidableEq

/-- The six-field running accumulator used by every `calculateNutrition`
variant in the source (`let totals = { calories: 0, ... }`). -/
structure Totals where
  calories : ℚ
  protein : ℚ
  carbs : ℚ
  sugar : ℚ
  fat : ℚ
  fiber : ℚ
deriving DecidableEq

/-- The all-zero accumulator the source initialises its `totals` with. -/
def totalsZero : Totals :=
  { calories := 0, protein := 0, carbs := 0, sugar := 0, fat := 0, fiber := 0 }

/-- Pointwise addition of two accumulators. -/
def Totals.add (a b : Totals) : Totals :=
  { calories := a.calories + b.calories
    protein := a.protein + b.protein
    carbs := a.carbs + b.carbs
    sugar := a.sugar + b.sugar
    fat := a.fat + b.fat
    fiber := a.fiber + b.fiber }

/-- The nullable-field shape `calculateNutrition` returns: `sugar`/`fiber`
are emitted as `null` when the accumulated sum is not positive. -/
structure NutOut where
  calories : ℚ
  protein : ℚ
  carbs : ℚ
  sugar : Option ℚ
  fat : ℚ
  fiber : Option ℚ
deriving DecidableEq

/-- Function `calculateMultiplier` from `EditMeal.tsx` (lines 121-134; the identical
function also appears in the meal-logging page): if the unit is the sentinel
`"servings"` the quantity is the multiplier; else if it equals the food's
reference unit the quantity is divided by the reference amount; else the
quantity is used directly with no conversion. -/
def calculateMultiplier (quantity : ℚ) (unit : String) (food : Food) : ℚ :=
  if unit = "servings" then quantity
  else if unit = food.reference_serving_unit then quantity / food.reference_serving_amount
  else quantity

/-- The unit-converter contract of spec section 4.1, written from the spec's
three bullet cases over an abstract reference serving `(refAmt, refUnit)`. -/
def multiplierSpec (quantity : ℚ) (unit : String) (refAmt : ℚ) (refUnit : String) : ℚ :=
  if unit = "servings" then quantity
  else if unit = refUnit then quantity / refAmt
  else quantity

/-- Records when an evaluation of `calculateMultiplier` executes its division
with a zero denominator: the unit is not the `"servings"` sentinel, matches
the reference unit, and the reference amount is `0`.  In the JavaScript
source this evaluation returns `Infinity`/`NaN`; there is no error path. -/
def multiplierHitsDivByZero (unit : String) (food : Food) : Bool :=
  decide (unit ≠ "servings") && decide (unit = food.reference_serving_unit)
    && decide (food.reference_serving_amount = 0)

/-- One loop iteration of the composite branch of `calculateNutrition` in
`AddFood.tsx` (lines 239-252) and `EditFood.tsx` (lines 758-771): the entry's
ingredient is looked up by id (a missing ingredient is skipped), and the
multiplier is `quantity / serving_amount` — the entry's `unit` is not read
(the source notes `Unit conversion is not implemented yet`). -/
def foodCompStep (ingredients : List Ingredient) (t : Totals) (ci : FoodIngredientEntry) : Totals :=
  match ingredients.find? (fun i => decide (i.id = ci.ingredient_id)) with
  | none => t
  | some ingredient =>
    let multiplier := ci.quantity / ingredient.serving_amount
    { calories := t.calories + ingredient.calories * multiplier
      protein := t.protein + ingredient.protein * multiplier
      carbs := t.carbs + ingredient.carbs * multiplier
      sugar := t.sugar + (ingredient.sugar.getD 0) * multiplier
      fat := t.fat + ingredient.fat * multiplier
      fiber := t.fiber + (ingredient.fiber.getD 0) * multiplier }

/-- The composite branch of `calculateNutrition` in `AddFood.tsx` /
`EditFood.tsx`: fold the entries into a running total, then emit `sugar` and
`fiber` as `null` unless the accumulated sum is positive. -/
def calculateNutritionComposite (ingredients : List Ingredient)
    (entries : List FoodIngredientEntry) : NutOut :=
  let totals := entries.foldl (foodCompStep ingredients) totalsZero
  { calories := totals.calories
    protein := totals.protein
    carbs := totals.carbs
    sugar := if 0 < totals.sugar then some totals.sugar else none
    fat := totals.fat
    fiber := if 0 < totals.fiber then some totals.fiber else none }

/-- The composite-food totals as claim C3 describes them: identical to
`calculateNutritionComposite` except that each entry is scaled by the
section-4.1 `multiplierSpec` applied to the entry's `(quantity, unit)`
against the ingredient's reference serving.  This definition follows the
spec's words and exists only to be compared with the source's function. -/
def compositeTotalsPerSpec (ingredients : List Ingredient)
    (entries : List FoodIngredientEntry) : NutOut :=
  let totals := entries.foldl (fun t ci =>
    match ingredients.find? (fun i => decide (i.id = ci.ingredient_id)) with
    | none => t
    | some ingredient =>
      let multiplier := multiplierSpec ci.quantity ci.unit
        ingredient.serving_amount ingredient.serving_unit
      { calories := t.calories + ingredient.calories * multiplier
        protein := t.protein + ingredient.protein * multiplier
        carbs := t.carbs + ingredient.carbs * multiplier
        sugar := t.sugar + (ingredient.sugar.getD 0) * multiplier
        fat := t.fat + ingredient.fat * multiplier
        fiber := t.fiber + (ingredient.fiber.getD 0) * multiplier }) totalsZero
  { calories := totals.calories
    protein := totals.protein
    carbs := totals.carbs
    sugar := if 0 < totals.sugar then some totals.sugar else none
    fat := totals.fat
    fiber := if 0 < totals.fiber then some totals.fiber else none }

/-- The single entry's contribution to the composite-food totals, read off
from the loop body of `foodCompStep`: the ingredient's values scaled by
`quantity / serving_amount`, or all zeros when the ingredient id does not
resolve. -/
def ingredientContribution (ingredients : List Ingredient)
    (ci : FoodIngredientEntry) : Totals :=
  match ingredients.find? (fun i => decide (i.id = ci.ingredient_id)) with
  | none => totalsZero
  | some ingredient =>
    let multiplier := ci.quantity / ingredient.serving_amount
    { calories := ingredient.calories * multiplier
      protein := ingredient.protein * multiplier
      carbs := ingredient.carbs * multiplier
      sugar := (ingredient.sugar.getD 0) * multiplier
      fat := ingredient.fat * multiplier
      fiber := (ingredient.fiber.getD 0) * multiplier }

/-- One loop iteration of `calculateNutrition` in `EditMeal.tsx` (lines
186-219): each meal entry's food is looked up by id and scaled by
`calculateMultiplier`. -/
def mealCompStep (foods : List Food) (t : Totals) (mf : MealFoodEntry) : Totals :=
  match foods.find? (fun f => decide (f.id = mf.food_id)) with
  | none => t
  | some food =>
    let multiplier := calculateMultiplier mf.quantity mf.unit food
    { calories := t.calories + food.calories * multiplier
      protein := t.protein + food.protein * multiplier
      carbs := t.carbs + food.carbs * multiplier
      sugar := t.sugar + (food.sugar.getD 0) * multiplier
      fat := t.fat + food.fat * multiplier
      fiber := t.fiber + (food.fiber.getD 0) * multiplier }

/-- Function `calculateNutrition` from `EditMeal.tsx`: the meal composer. -/
def calculateMealNutrition (foods : List Food) (mealFoods : List MealFoodEntry) : NutOut :=
  let totals := mealFoods.foldl (mealCompStep foods) totalsZero
  { calories := totals.calories
    protein := totals.protein
    carbs := totals.carbs
    sugar := if 0 < totals.sugar then some totals.sugar else none
    fat := totals.fat
    fiber := if 0 < totals.fiber then some totals.fiber else none }

/-- Pointwise sum of a list of accumulators. -/
def totalsSum (l : List Totals) : Totals := l.foldr Totals.add totalsZero

/-- The `nutritionData` computed by the meal branch of `handleSubmit` in the
meal-logging page (`LogMeal`, lines 686-705 of the relevant document): the
four required nutrients are the meal's stored totals times the quantity;
`sugar` and `fiber` are written as `meal.sugar ? meal.sugar * multiplier :
null`, so a stored `null` or `0` is captured as `null`. -/
def mealLogNutrition (meal : Meal) (quantity : ℚ) : NutOut :=
  { calories := meal.calories * quantity
    protein := meal.protein * quantity
    carbs := meal.carbs * quantity
    sugar := if jsTruthy meal.sugar then some (meal.sugar.getD 0 * quantity) else none
    fat := meal.fat * quantity
    fiber := if jsTruthy meal.fiber then some (meal.fiber.getD 0 * quantity) else none }

/-- A `user_consumption` row: the captured name, the six snapshot nutrient
values (`sugar`/`fiber` nullable), the quantity multiplier, the consumption
date (a calendar day number) and the optional note. -/
structure ConsumptionRow where
  user_id : String
  meal_id : Option String
  meal_name : String
  calories : ℚ
  protein : ℚ
  carbs : ℚ
  sugar : Option ℚ
  fat : ℚ
  fiber : Option ℚ
  quantity : ℚ
  consumed_date : ℤ
  notes : Option String
deriving DecidableEq

/-- The `user_consumption` row inserted when a referenced meal is logged. -/
def mealLogRow (u : String) (meal : Meal) (quantity : ℚ) (date : ℤ)
    (notes : Option String) : ConsumptionRow :=
  let n := mealLogNutrition meal quantity
  { user_id := u
    meal_id := some meal.id
    meal_name := meal.name
    calories := n.calories
    protein := n.protein
    carbs := n.carbs
    sugar := n.sugar
    fat := n.fat
    fiber := n.fiber
    quantity := quantity
    consumed_date := date
    notes := notes }

/-- A `meal_foods` join-table row. -/
structure MealFoodRow where
  meal_id : String
  food_id : String
  quantity : ℚ
  unit : String
deriving DecidableEq

/-- The tables touched by meal logging and meal editing. -/
structure DB where
  meals : List Meal
  meal_foods : List MealFoodRow
  consumption : List ConsumptionRow
deriving DecidableEq

/-- The meal branch of the logging `handleSubmit`: resolve the selected meal
id (on failure the submission aborts with `Selected meal not found` and
nothing is inserted), then insert one `user_consumption` row carrying the
computed snapshot. -/
def logMealById (u mealId : String) (quantity : ℚ) (date : ℤ)
    (notes : Option String) (db : DB) : DB :=
  match db.meals.find? (fun m => decide (m.id = mealId)) with
  | none => db
  | some meal =>
    { db with consumption := db.consumption ++ [mealLogRow u meal quantity date notes] }

/-- Function `handleSubmit` of `EditMeal.tsx` (lines 221-272): recompute the meal's
nutrition from the form's food list, update the `meals` row in place, delete
the meal's `meal_foods` rows and insert the new ones.  The
`user_consumption` table is not touched. -/
def editMealSave (mealId nm : String) (ds : Option String) (foods : List Food)
    (mealFoods : List MealFoodEntry) (db : DB) : DB :=
  let nutrition := calculateMealNutrition foods mealFoods
  { meals := db.meals.map (fun m =>
      if m.id = mealId then
        { m with name := nm
                 description := ds
                 calories := nutrition.calories
                 protein := nutrition.protein
                 carbs := nutrition.carbs
                 sugar := nutrition.sugar
                 fat := nutrition.fat
                 fiber := nutrition.fiber }
      else m)
    meal_foods := (db.meal_foods.filter (fun mf => decide (mf.meal_id ≠ mealId)))
      ++ mealFoods.map (fun mf =>
        { meal_id := mealId, food_id := mf.food_id, quantity := mf.quantity, unit := mf.unit })
    consumption := db.consumption }

/-- A `user_goals` row (or the hard-coded default used when none exists). -/
structure GoalsRow where
  calories : ℚ
  protein : ℚ
  carbs : ℚ
  sugar : Option ℚ
  fat : ℚ
  fiber : Option ℚ
deriving DecidableEq

/-- A `daily_nutrition_snapshots` row: frozen goal values, consumed totals
and the update timestamp, keyed by `(user_id, log_date)`. -/
structure SnapshotRow where
  user_id : String
  log_date : ℤ
  calories_goal : ℚ
  protein_goal : ℚ
  carbs_goal : ℚ
  fat_goal : ℚ
  sugar_goal : Option ℚ
  fiber_goal : Option ℚ
  calories_consumed : ℚ
  protein_consumed : ℚ
  carbs_consumed : ℚ
  fat_consumed : ℚ
  sugar_consumed : ℚ
  fiber_consumed : ℚ
  updated_at : ℤ
deriving DecidableEq

/-- The upsert payload built in `createMissingSnapshots`: every goal column
is filled from the current goals record and every consumed column from the
day's summed totals. -/
def mkSnapshotRow (u : String) (d : ℤ) (goals : GoalsRow) (t : Totals)
    (now : ℤ) : SnapshotRow :=
  { user_id := u
    log_date := d
    calories_goal := goals.calories
    protein_goal := goals.protein
    carbs_goal := goals.carbs
    fat_goal := goals.fat
    sugar_goal := goals.sugar
    fiber_goal := goals.fiber
    calories_consumed := t.calories
    protein_consumed := t.protein
    carbs_consumed := t.carbs
    fat_consumed := t.fat
    sugar_consumed := t.sugar
    fiber_consumed := t.fiber
    updated_at := now }

/-- PostgREST `upsert` with `onConflict: (user_id, log_date)`: the generated
SQL is `INSERT ... ON CONFLICT (user_id, log_date) DO UPDATE SET` every
supplied column.  Since the one call site supplies every column modelled
here, a conflicting row is replaced by the payload; otherwise the payload is
inserted. -/
def upsertSnapshot (store : List SnapshotRow) (row : SnapshotRow) : List SnapshotRow :=
  if store.any (fun r => decide (r.user_id = row.user_id ∧ r.log_date = row.log_date)) then
    store.map (fun r =>
      if r.user_id = row.user_id ∧ r.log_date = row.log_date then row else r)
  else store ++ [row]

/-- Read back the one snapshot row of a `(user, date)` key. -/
def lookupSnapshot (u : String) (d : ℤ) (store : List SnapshotRow) : Option SnapshotRow :=
  store.find? (fun r => decide (r.user_id = u ∧ r.log_date = d))

/-- Deduplication via the JavaScript `[...new Set(list)]` idiom, keeping the
first occurrence of each element as the `Set` constructor does. -/
def jsSetUnique (l : List ℤ) : List ℤ :=
  l.foldl (fun acc d => if d ∈ acc then acc else acc ++ [d]) []

/-- The per-date consumption query of `createMissingSnapshots`: the user's
`user_consumption` rows whose `consumed_date` equals the date. -/
def dayEntriesFor (u : String) (d : ℤ) (entries : List ConsumptionRow) :
    List ConsumptionRow :=
  entries.filter (fun e => decide (e.user_id = u ∧ e.consumed_date = d))

/-- One iteration of the summation loop in `createMissingSnapshots` (lines
993-1000): each nutrient is accumulated with `entry.field || 0`, which on the
non-null columns is the identity and on `sugar`/`fiber` defaults `null` to
`0`. -/
def consumeStep (t : Totals) (e : ConsumptionRow) : Totals :=
  { calories := t.calories + e.calories
    protein := t.protein + e.protein
    carbs := t.carbs + e.carbs
    sugar := t.sugar + e.sugar.getD 0
    fat := t.fat + e.fat
    fiber := t.fiber + e.fiber.getD 0 }

/-- The day's summed totals. -/
def sumConsumed (l : List ConsumptionRow) : Totals := l.foldl consumeStep totalsZero

/-- The six per-entry summands of the day totals. -/
def entryTotals (e : ConsumptionRow) : Totals :=
  { calories := e.calories
    protein := e.protein
    carbs := e.carbs
    sugar := e.sugar.getD 0
    fat := e.fat
    fiber := e.fiber.getD 0 }

/-- Function `createMissingSnapshots` from the history page (`AddFood.tsx` document,
lines 939-1028): collect the distinct consumption dates of the user within
the 90-day lookback window, and for each such date sum that date's log
entries and upsert one snapshot row combining the sums with the current
goals and a fresh timestamp. -/
def createMissingSnapshots (u : String) (goals : GoalsRow)
    (entries : List ConsumptionRow) (today now : ℤ)
    (store : List SnapshotRow) : List SnapshotRow :=
  let windowDates := (entries.filter (fun e =>
    decide (e.user_id = u ∧ today - 90 ≤ e.consumed_date))).map (fun e => e.consumed_date)
  (jsSetUnique windowDates).foldl (fun st d =>
    upsertSnapshot st (mkSnapshotRow u d goals (sumConsumed (dayEntriesFor u d entries)) now))
    store

/-- The purge routine of `create_daily_nutrition_snapshots.sql` (lines
61-70): `DELETE FROM daily_nutrition_snapshots WHERE log_date < CURRENT_DATE
- INTERVAL '90 days'`. -/
def delete_old_nutrition_snapshots (today : ℤ) (store : List SnapshotRow) :
    List SnapshotRow :=
  store.filter (fun r => !(decide (r.log_date < today - 90)))

/-- Function `initializeHistory` of the history page: run the purge, then materialize
the missing snapshots (the subsequent `fetchSnapshots` read is
`listHistorySnapshots`). -/
def reconcileHistory (u : String) (goals : GoalsRow)
    (entries : List ConsumptionRow) (today now : ℤ)
    (store : List SnapshotRow) : List SnapshotRow :=
  createMissingSnapshots u goals entries today now
    (delete_old_nutrition_snapshots today store)

/-- Function `fetchSnapshots`: the user's snapshot rows (ordering by date is
presentation only and not modelled). -/
def listHistorySnapshots (u : String) (store : List SnapshotRow) : List SnapshotRow :=
  store.filter (fun r => decide (r.user_id = u))

/-- Milliseconds per day, the divisor in `canEdit`. -/
def msPerDay : ℤ := 1000 * 60 * 60 * 24

/-- Function `canEdit` from the history page (lines 1045-1051): `new Date(logDate)`
is the UTC midnight of the snapshot's calendar day, `new Date()` is the
current instant `nowMs` (epoch milliseconds), and the check is
`Math.ceil(diffTime / 86400000) <= 7`. -/
def canEdit (nowMs dayLog : ℤ) : Bool :=
  let diffTime : ℤ := nowMs - dayLog * msPerDay
  decide ((⌈(diffTime : ℚ) / (msPerDay : ℚ)⌉ : ℤ) ≤ 7)

/-- Concrete ingredient used to exercise the composite-food composer: 100
kcal, 10 g protein per 100 g reference serving. -/
def ingrGrain : Ingredient :=
  { id := "i1", serving_amount := 100, serving_unit := "g", calories := 100,
    protein := 10, carbs := 5, sugar := none, fat := 1, fiber := none }

/-- Concrete composite-food entry: 2 servings of `ingrGrain`. -/
def entryTwoServings : FoodIngredientEntry :=
  { ingredient_id := "i1", quantity := 2, unit := "servings" }

/-- Concrete food whose reference serving amount is zero, the degenerate
input claim C7 is about. -/
def foodZeroRef : Food :=
  { id := "f0", name := "broth", calories := 10, protein := 0, carbs := 1,
    sugar := none, fat := 0, fiber := none,
    reference_serving_amount := 0, reference_serving_unit := "g" }

/-- Concrete food with a positive reference serving, used by witnesses. -/
def foodRice : Food :=
  { id := "f1", name := "rice", calories := 130, protein := 3, carbs := 28,
    sugar := some 1, fat := 0, fiber := some 1,
    reference_serving_amount := 100, reference_serving_unit := "g" }

/-- Concrete meal whose stored sugar and fiber are exactly `0`. -/
def mealZeroSugar : Meal :=
  { id := "m1", name := "omelette", description := none, calories := 300,
    protein := 20, carbs := 2, sugar := some 0, fat := 22, fiber := some 0 }

/-- Concrete consumption entry of user `"u"` on day `5`, sugar and fiber
absent. -/
def entryDay5 : ConsumptionRow :=
  { user_id := "u", meal_id := none, meal_name := "lunch", calories := 500,
    protein := 30, carbs := 50, sugar := none, fat := 20, fiber := none,
    quantity := 1, consumed_date := 5, notes := none }

/-- Second concrete entry on day `5`, with sugar present. -/
def entryDay5b : ConsumptionRow :=
  { user_id := "u", meal_id := none, meal_name := "snack", calories := 200,
    protein := 5, carbs := 30, sugar := some 12, fat := 8, fiber := some 2,
    quantity := 1, consumed_date := 5, notes := none }

/-- Goals in force at the first materialization. -/
def goalsFirst : GoalsRow :=
  { calories := 2000, protein := 150, carbs := 250, sugar := none, fat := 65,
    fiber := none }

/-- Different goals set afterwards via the goals modal. -/
def goalsLater : GoalsRow :=
  { calories := 1800, protein := 160, carbs := 200, sugar := some 40, fat := 60,
    fiber := some 30 }

/-- A snapshot row dated day `1`, far older than the 90-day horizon when
today is day `100`. -/
def snapOld : SnapshotRow :=
  mkSnapshotRow userU 1 goalsFirst (sumConsumed [entryDay5]) 0

/-- A snapshot row dated day `95`, inside the horizon when today is day
`100`. -/
def snapFresh : SnapshotRow :=
  mkSnapshotRow userU 95 goalsFirst (sumConsumed [entryDay5b]) 0

theorem Totals.add_zeroR (t : Totals) : t.add totalsZero = t := by
  cases t
  simp [Totals.add, totalsZero]

theorem Totals.zero_addL (t : Totals) : totalsZero.add t = t := by
  cases t
  simp [Totals.add, totalsZero]

theorem Totals.add_assoc (a b c : Totals) : (a.add b).add c = a.add (b.add c) := by
  cases a
  cases b
  cases c
  simp only [Totals.add, mk.injEq]
  refine ⟨?_, ?_, ?_, ?_, ?_, ?_⟩ <;> ring

/-- A fold whose step adds a per-element contribution computes the pointwise
sum of the contributions. -/
theorem foldl_add_contrib {α : Type} (c : α → Totals) (step : Totals → α → Totals)
    (hstep : ∀ t e, step t e = t.add (c e)) :
    ∀ (l : List α) (t : Totals), l.foldl step t = t.add (totalsSum (l.map c))
  | [], t => by simp [totalsSum, Totals.add_zeroR]
  | e :: l, t => by
    simp only [List.foldl_cons, List.map_cons]
    rw [foldl_add_contrib c step hstep l (step t e), hstep]
    simp [totalsSum, Totals.add_assoc]

theorem totalsSum_fields (l : List Totals) :
    totalsSum l = { calories := (l.map Totals.calories).sum
                    protein := (l.map Totals.protein).sum
                    carbs := (l.map Totals.carbs).sum
                    sugar := (l.map Totals.sugar).sum
                    fat := (l.map Totals.fat).sum
                    fiber := (l.map Totals.fiber).sum } := by
  induction l with
  | nil => simp [totalsSum, totalsZero]
  | cons e l ih =>
    simp only [totalsSum, List.foldr_cons, List.map_cons, List.sum_cons]
    rw [show l.foldr Totals.add totalsZero = totalsSum l from rfl, ih]
    simp [Totals.add]

theorem foodCompStep_eq_add (ingredients : List Ingredient) (t : Totals)
    (ci : FoodIngredientEntry) :
    foodCompStep ingredients t ci = t.add (ingredientContribution ingredients ci) := by
  unfold foodCompStep ingredientContribution
  cases ingredients.find? (fun i => decide (i.id = ci.ingredient_id)) with
  | none => exact (Totals.add_zeroR t).symm
  | some i => rfl

/-- The composite-food entry's contribution does not depend on the entry's
unit. -/
theorem ingredientContribution_unit_irrelevant (ingredients : List Ingredient)
    (ci : FoodIngredientEntry) (u : String) :
    ingredientContribution ingredients { ci with unit := u }
      = ingredientContribution ingredients ci := rfl

theorem consumeStep_eq_add (t : Totals) (e : ConsumptionRow) :
    consumeStep t e = t.add (entryTotals e) := rfl

theorem sumConsumed_fields (l : List ConsumptionRow) :
    sumConsumed l = { calories := (l.map (fun e => e.calories)).sum
                      protein := (l.map (fun e => e.protein)).sum
                      carbs := (l.map (fun e => e.carbs)).sum
                      sugar := (l.map (fun e => e.sugar.getD 0)).sum
                      fat := (l.map (fun e => e.fat)).sum
                      fiber := (l.map (fun e => e.fiber.getD 0)).sum } := by
  unfold sumConsumed
  rw [foldl_add_contrib entryTotals consumeStep consumeStep_eq_add l totalsZero,
    Totals.zero_addL, totalsSum_fields]
  simp [List.map_map, Function.comp_def, entryTotals]

theorem jsSetUnique_aux (l : List ℤ) : ∀ (acc : List ℤ) (d : ℤ),
    d ∈ l.foldl (fun acc x => if x ∈ acc then acc else acc ++ [x]) acc ↔
      d ∈ acc ∨ d ∈ l := by
  induction l with
  | nil => simp
  | cons x xs ih =>
    intro acc d
    simp only [List.foldl_cons]
    rw [ih]
    by_cases hx : x ∈ acc
    · simp only [if_pos hx, List.mem_cons]
      constructor
      · rintro (h | h)
        · exact Or.inl h
        · exact Or.inr (Or.inr h)
      · rintro (h | h | h)
        · exact Or.inl h
        · exact Or.inl (h ▸ hx)
        · exact Or.inr h
    · simp only [if_neg hx, List.mem_append, List.mem_singleton, List.mem_cons]
      tauto

theorem jsSetUnique_mem (l : List ℤ) (d : ℤ) : d ∈ jsSetUnique l ↔ d ∈ l := by
  unfold jsSetUnique
  rw [jsSetUnique_aux]
  simp

theorem find?_map_replace_self (row : SnapshotRow) :
    ∀ store : List SnapshotRow,
      store.any (fun r =>
        decide (r.user_id = row.user_id ∧ r.log_date = row.log_date)) = true →
      (store.map (fun r =>
          if r.user_id = row.user_id ∧ r.log_date = row.log_date then row else r)).find?
        (fun r => decide (r.user_id = row.user_id ∧ r.log_date = row.log_date))
        = some row := by
  intro store
  induction store with
  | nil => intro h; simp at h
  | cons r rs ih =>
    intro h
    by_cases hk : r.user_id = row.user_id ∧ r.log_date = row.log_date
    · simp [hk]
    · simp only [List.any_cons, Bool.or_eq_true, decide_eq_true_eq] at h
      rcases h with h | h
      · exact absurd h hk
      · simpa [hk] using ih h

theorem find?_map_replace_other (row : SnapshotRow) (u : String) (d : ℤ)
    (h : ¬(u = row.user_id ∧ d = row.log_date)) :
    ∀ store : List SnapshotRow,
      (store.map (fun r =>
          if r.user_id = row.user_id ∧ r.log_date = row.log_date then row else r)).find?
        (fun r => decide (r.user_id = u ∧ r.log_date = d))
        = store.find? (fun r => decide (r.user_id = u ∧ r.log_date = d)) := by
  intro store
  induction store with
  | nil => rfl
  | cons r rs ih =>
    by_cases hk : r.user_id = row.user_id ∧ r.log_date = row.log_date
    · have hr : ¬(r.user_id = u ∧ r.log_date = d) := by
        rintro ⟨h1, h2⟩
        exact h ⟨by rw [← h1, hk.1], by rw [← h2, hk.2]⟩
      have hrow : ¬(row.user_id = u ∧ row.log_date = d) := by
        rintro ⟨h1, h2⟩
        exact h ⟨h1.symm, h2.symm⟩
      simp only [List.map_cons, if_pos hk]
      rw [List.find?_cons_of_neg, List.find?_cons_of_neg]
      · exact ih
      · simpa using hr
      · simpa using hrow
    · simp only [List.map_cons, if_neg hk]
      by_cases hr : r.user_id = u ∧ r.log_date = d
      · rw [List.find?_cons_of_pos, List.find?_cons_of_pos]
        · simpa using hr
        · simpa using hr
      · rw [List.find?_cons_of_neg, List.find?_cons_of_neg]
        · exact ih
        · simpa using hr
        · simpa using hr

theorem lookupSnapshot_upsert_self (store : List SnapshotRow) (row : SnapshotRow)
    (u : String) (d : ℤ) (hu : row.user_id = u) (hd : row.log_date = d) :
    lookupSnapshot u d (upsertSnapshot store row) = some row := by
  subst hu hd
  unfold upsertSnapshot lookupSnapshot
  split
  case isTrue h => exact find?_map_replace_self row store h
  case isFalse h =>
    have hnone : store.find? (fun r =>
        decide (r.user_id = row.user_id ∧ r.log_date = row.log_date)) = none := by
      rw [List.find?_eq_none]
      intro x hx hpx
      exact h (List.any_eq_true.mpr ⟨x, hx, hpx⟩)
    rw [List.find?_append, hnone]
    simp

theorem lookupSnapshot_upsert_other (store : List SnapshotRow) (row : SnapshotRow)
    (u : String) (d : ℤ) (h : ¬(u = row.user_id ∧ d = row.log_date)) :
    lookupSnapshot u d (upsertSnapshot store row) = lookupSnapshot u d store := by
  have hrow : ¬(row.user_id = u ∧ row.log_date = d) := by
    rintro ⟨h1, h2⟩
    exact h ⟨h1.symm, h2.symm⟩
  unfold upsertSnapshot lookupSnapshot
  split
  case isTrue hany => exact find?_map_replace_other row u d h store
  case isFalse hany =>
    simp [List.find?_append, hrow]

theorem lookupSnapshot_foldl_upsert_not_mem (u : String) (f : ℤ → SnapshotRow)
    (hfd : ∀ x, (f x).log_date = x) (dates : List ℤ) (d : ℤ) (hd : d ∉ dates) :
    ∀ store : List SnapshotRow,
      lookupSnapshot u d (dates.foldl (fun st x => upsertSnapshot st (f x)) store)
        = lookupSnapshot u d store := by
  induction dates with
  | nil => intro store; rfl
  | cons x xs ih =>
    intro store
    have hdx : d ≠ x := fun hc => hd (hc ▸ List.mem_cons_self x xs)
    have hdxs : d ∉ xs := fun hc => hd (List.mem_cons_of_mem x hc)
    rw [List.foldl_cons, ih hdxs,
      lookupSnapshot_upsert_other store (f x) u d (by
        rintro ⟨_, h2⟩
        exact hdx (by rw [h2, hfd x]))]

theorem lookupSnapshot_foldl_upsert_mem (u : String) (f : ℤ → SnapshotRow)
    (hfu : ∀ x, (f x).user_id = u) (hfd : ∀ x, (f x).log_date = x)
    (dates : List ℤ) (d : ℤ) (hd : d ∈ dates) :
    ∀ store : List SnapshotRow,
      lookupSnapshot u d (dates.foldl (fun st x => upsertSnapshot st (f x)) store)
        = some (f d) := by
  induction dates with
  | nil => cases hd
  | cons x xs ih =>
    intro store
    rw [List.foldl_cons]
    by_cases hm : d ∈ xs
    · exact ih hm _
    · have hdx : d = x := by
        rcases List.mem_cons.mp hd with h | h
        · exact h
        · exact absurd h hm
      subst hdx
      rw [lookupSnapshot_foldl_upsert_not_mem u f hfd xs d hm,
        lookupSnapshot_upsert_self store (f d) u d (hfu d) (hfd d)]

theorem mem_upsertSnapshot (store : List SnapshotRow) (row r : SnapshotRow)
    (h : r ∈ upsertSnapshot store row) : r ∈ store ∨ r = row := by
  unfold upsertSnapshot at h
  split at h
  case isTrue =>
    rcases List.mem_map.mp h with ⟨a, ha, hr⟩
    by_cases hk : a.user_id = row.user_id ∧ a.log_date = row.log_date
    · rw [if_pos hk] at hr
      exact Or.inr hr.symm
    · rw [if_neg hk] at hr
      exact Or.inl (hr ▸ ha)
  case isFalse =>
    rcases List.mem_append.mp h with h | h
    · exact Or.inl h
    · exact Or.inr (List.mem_singleton.mp h)

theorem mem_foldl_upsert (f : ℤ → SnapshotRow) (dates : List ℤ) (r : SnapshotRow) :
    ∀ store : List SnapshotRow,
      r ∈ dates.foldl (fun st x => upsertSnapshot st (f x)) store →
        r ∈ store ∨ ∃ x ∈ dates, r = f x := by
  induction dates with
  | nil => intro store h; exact Or.inl h
  | cons x xs ih =>
    intro store h
    rw [List.foldl_cons] at h
    rcases ih (upsertSnapshot store (f x)) h with h' | ⟨y, hy, hr⟩
    · rcases mem_upsertSnapshot store (f x) r h' with h'' | h''
      · exact Or.inl h''
      · exact Or.inr ⟨x, List.mem_cons_self x xs, h''⟩
    · exact Or.inr ⟨y, List.mem_cons_of_mem x hy, hr⟩

/-- C1: for every quantity, unit string and component, the unit-converter
multiplier is given by exactly the three cases of section 4.1 — `quantity`
for the `"servings"` sentinel, `quantity / referenceAmount` on an exact
case-sensitive match with the reference unit, and the fallback `quantity`
otherwise.  The source's `calculateMultiplier` coincides with the contract
written from the spec's words. -/
theorem calculateMultiplier_eq_spec (q : ℚ) (u : String) (food : Food) :
    calculateMultiplier q u food
      = multiplierSpec q u food.reference_serving_amount food.reference_serving_unit := rfl

/-- C7 counterexample: a reference serving amount of `0` does not make the
unit converter fail — `calculateMultiplier` has no error outcome at all, and
on a matching unit it reaches its division with the zero reference amount as
denominator (IEEE `Infinity` in the JavaScript source). -/
theorem multiplier_divzero_cex :
    foodZeroRef.reference_serving_amount ≤ 0
      ∧ multiplierHitsDivByZero unitGram foodZeroRef = true
      ∧ calculateMultiplier 5 unitGram foodZeroRef = 5 / foodZeroRef.reference_serving_amount :=
  ⟨by norm_num [foodZeroRef], by decide, by simp [calculateMultiplier, foodZeroRef, unitGram]⟩

/-- C7 amended: `calculateMultiplier` performs no validation of the
reference amount and never raises an error: whenever the unit is not the
`"servings"` sentinel and equals the reference unit it returns
`quantity / referenceAmount` unconditionally, executing a division by zero
(producing `Infinity`/`NaN` in the source, where no `InvalidReference` error
exists) when the reference amount is `0`. -/
theorem multiplier_no_reference_validation (q : ℚ) (u : String) (food : Food)
    (h1 : u ≠ "servings") (h2 : u = food.reference_serving_unit) :
    calculateMultiplier q u food = q / food.reference_serving_amount
      ∧ (food.reference_serving_amount = 0 → multiplierHitsDivByZero u food = true) := by
  constructor
  · unfold calculateMultiplier
    rw [if_neg h1, if_pos h2]
  · intro h0
    unfold multiplierHitsDivByZero
    subst h2
    simp [h1, h0]

/-- Witness for the C7 theorem at the concrete zero-reference food. -/
theorem multiplier_no_reference_validation_witness :
    calculateMultiplier 5 unitGram foodZeroRef = 5 / foodZeroRef.reference_serving_amount
      ∧ multiplierHitsDivByZero unitGram foodZeroRef = true := by
  have h := multiplier_no_reference_validation 5 unitGram foodZeroRef (by decide) (by decide)
  exact ⟨h.1, h.2 (by decide)⟩

/-- C3 counterexample: a composite-food entry of 2 `"servings"` of an
ingredient whose reference serving is 100 g and 100 kcal yields 2 kcal from
the source's `calculateNutrition` (which always divides by the serving
amount and ignores the entry's unit), not the 200 kcal the section-4.1
multiplier of the claim would give. -/
theorem compositeTotals_unit_cex :
    (calculateNutritionComposite [ingrGrain] [entryTwoServings]).calories = 2
      ∧ (compositeTotalsPerSpec [ingrGrain] [entryTwoServings]).calories = 200
      ∧ (2 : ℚ) ≠ 200 :=
  ⟨by norm_num [calculateNutritionComposite, foodCompStep, ingrGrain, entryTwoServings,
      totalsZero],
   by norm_num [compositeTotalsPerSpec, multiplierSpec, ingrGrain, entryTwoServings,
      totalsZero],
   by norm_num⟩

/-- C3 amended: the composite-food totals are the elementwise sum, over the
entries, of the ingredient's values scaled by `quantity / serving_amount`
alone — the entry's unit does not participate in the scale factor (no unit
conversion is implemented) — with the sugar and fiber sums emitted as `null`
unless positive. -/
theorem compositeTotals_sum_formula (ingredients : List Ingredient)
    (entries : List FoodIngredientEntry) (uf : FoodIngredientEntry → String) :
    calculateNutritionComposite ingredients (entries.map (fun e => { e with unit := uf e }))
        = calculateNutritionComposite ingredients entries
      ∧ (calculateNutritionComposite ingredients entries).calories
          = (entries.map (fun e => (ingredientContribution ingredients e).calories)).sum
      ∧ (calculateNutritionComposite ingredients entries).protein
          = (entries.map (fun e => (ingredientContribution ingredients e).protein)).sum
      ∧ (calculateNutritionComposite ingredients entries).carbs
          = (entries.map (fun e => (ingredientContribution ingredients e).carbs)).sum
      ∧ (calculateNutritionComposite ingredients entries).fat
          = (entries.map (fun e => (ingredientContribution ingredients e).fat)).sum
      ∧ (calculateNutritionComposite ingredients entries).sugar
          = (if 0 < (entries.map (fun e => (ingredientContribution ingredients e).sugar)).sum
             then some ((entries.map (fun e => (ingredientContribution ingredients e).sugar)).sum)
             else none)
      ∧ (calculateNutritionComposite ingredients entries).fiber
          = (if 0 < (entries.map (fun e => (ingredientContribution ingredients e).fiber)).sum
             then some ((entries.map (fun e => (ingredientContribution ingredients e).fiber)).sum)
             else none) := by
  have hfold : ∀ es : List FoodIngredientEntry,
      es.foldl (foodCompStep ingredients) totalsZero
        = totalsSum (es.map (ingredientContribution ingredients)) := by
    intro es
    rw [foldl_add_contrib (ingredientContribution ingredients) (foodCompStep ingredients)
      (foodCompStep_eq_add ingredients) es totalsZero, Totals.zero_addL]
  have hcomp : ∀ es : List FoodIngredientEntry,
      calculateNutritionComposite ingredients es
        = { calories := (es.map (fun e => (ingredientContribution ingredients e).calories)).sum
            protein := (es.map (fun e => (ingredientContribution ingredients e).protein)).sum
            carbs := (es.map (fun e => (ingredientContribution ingredients e).carbs)).sum
            sugar := (if 0 < (es.map (fun e => (ingredientContribution ingredients e).sugar)).sum
                      then some ((es.map (fun e => (ingredientContribution ingredients e).sugar)).sum)
                      else none)
            fat := (es.map (fun e => (ingredientContribution ingredients e).fat)).sum
            fiber := (if 0 < (es.map (fun e => (ingredientContribution ingredients e).fiber)).sum
                      then some ((es.map (fun e => (ingredientContribution ingredients e).fiber)).sum)
                      else none) } := by
    intro es
    unfold calculateNutritionComposite
    rw [hfold, totalsSum_fields]
    simp [List.map_map, Function.comp_def]
  refine ⟨?_, ?_, ?_, ?_, ?_, ?_, ?_⟩
  · rw [hcomp, hcomp]
    simp [Function.comp_def, ingredientContribution_unit_irrelevant]
  all_goals rw [hcomp]

/-- C4 counterexample: logging 2 of a meal whose stored sugar total is
exactly `0` captures `null` for sugar, not `0 * 2`: the six captured values
are not all the stored totals times the quantity. -/
theorem mealLog_zero_sugar_cex :
    (0 : ℚ) < 2 ∧ mealZeroSugar.sugar = some 0
      ∧ (mealLogNutrition mealZeroSugar 2).sugar
          ≠ mealZeroSugar.sugar.map (fun s => s * 2) :=
  ⟨by norm_num, rfl, by decide⟩

/-- C4 amended: for every positive quantity the four required captured
values are the stored totals times the quantity; the captured sugar (and
likewise fiber) is the stored value times the quantity only when the stored
value is present and nonzero, and is `null` when the stored value is absent
or exactly `0`. -/
theorem mealLog_snapshot_fields (meal : Meal) (q : ℚ) :
    (mealLogNutrition meal q).calories = meal.calories * q
      ∧ (mealLogNutrition meal q).protein = meal.protein * q
      ∧ (mealLogNutrition meal q).carbs = meal.carbs * q
      ∧ (mealLogNutrition meal q).fat = meal.fat * q
      ∧ (mealLogNutrition meal q).sugar
          = (match meal.sugar with
             | none => none
             | some s => if s = 0 then none else some (s * q))
      ∧ (mealLogNutrition meal q).fiber
          = (match meal.fiber with
             | none => none
             | some s => if s = 0 then none else some (s * q)) := by
  refine ⟨rfl, rfl, rfl, rfl, ?_, ?_⟩
  · unfold mealLogNutrition jsTruthy
    cases meal.sugar with
    | none => rfl
    | some s =>
      by_cases h0 : s = 0 <;> simp [h0]
  · unfold mealLogNutrition jsTruthy
    cases meal.fiber with
    | none => rfl
    | some s =>
      by_cases h0 : s = 0 <;> simp [h0]

/-- C10: when a referenced meal's stored sugar (respectively fiber) is
exactly `0`, the log entry created for any positive quantity records that
nutrient as `null` rather than `0` — JavaScript truthiness makes the logging
path treat a stored zero in an optional nutrient as absent. -/
theorem mealLog_zero_optional_null (meal : Meal) (q : ℚ) (hq : 0 < q) :
    (meal.sugar = some 0 → (mealLogNutrition meal q).sugar = none)
      ∧ (meal.fiber = some 0 → (mealLogNutrition meal q).fiber = none) := by
  constructor <;> intro h <;> simp [mealLogNutrition, jsTruthy, h]

/-- Witness for the C10 theorem at the concrete zero-sugar, zero-fiber
meal. -/
theorem mealLog_zero_optional_null_witness :
    (mealLogNutrition mealZeroSugar 2).sugar = none
      ∧ (mealLogNutrition mealZeroSugar 2).fiber = none :=
  ⟨(mealLog_zero_optional_null mealZeroSugar 2 (by norm_num)).1 rfl,
   (mealLog_zero_optional_null mealZeroSugar 2 (by norm_num)).2 rfl⟩

/-- C5: re-saving a meal through the edit page rewrites only the `meals` and
`meal_foods` tables; the `user_consumption` table — and with it every
previously captured snapshot's six nutrient values and date — is unchanged,
both on an arbitrary database and on one that just logged the meal being
edited.  Snapshots are written once at logging time and never refreshed. -/
theorem editMeal_preserves_consumption (u mealId : String) (q : ℚ) (date : ℤ)
    (note : Option String) (editId nm : String) (ds : Option String)
    (foods : List Food) (mealFoods : List MealFoodEntry) (db : DB) :
    (editMealSave editId nm ds foods mealFoods
        (logMealById u mealId q date note db)).consumption
        = (logMealById u mealId q date note db).consumption
      ∧ (editMealSave editId nm ds foods mealFoods db).consumption = db.consumption :=
  ⟨rfl, rfl⟩

/-- C2: re-running the reconciliation pass on an already-materialized date
after the goals changed does NOT leave the frozen goal fields alone — the
upsert supplies every column, so the `ON CONFLICT DO UPDATE` overwrites the
goal fields with the current goals.  On user `"u"`, a single entry on day
`5`, first reconciled under `goalsFirst` (2000 kcal goal): after a second
pass under `goalsLater` (1800 kcal goal) the snapshot's `calories_goal`
reads `1800`, not the frozen `2000`.  This contradicts the table's own
stated purpose (`This preserves historical data even when goals change`),
so the claim stands and the code is wrong. -/
theorem reconcile_refreezes_goals :
    (lookupSnapshot userU 5 (createMissingSnapshots userU goalsFirst [entryDay5] 10 1 [])).map
        (fun r => r.calories_goal) = some 2000
      ∧ (lookupSnapshot userU 5
          (createMissingSnapshots userU goalsLater [entryDay5] 10 2
            (createMissingSnapshots userU goalsFirst [entryDay5] 10 1 []))).map
        (fun r => r.calories_goal) = some 1800
      ∧ (1800 : ℚ) ≠ 2000 := by
  refine ⟨?_, ?_, by norm_num⟩ <;>
    simp [createMissingSnapshots, jsSetUnique, upsertSnapshot, lookupSnapshot,
      mkSnapshotRow, dayEntriesFor, entryDay5, goalsFirst, goalsLater, userU]

/-- C6: every date materialized by the reconciliation pass carries consumed
totals equal to the elementwise sum of that date's log entries' six nutrient
fields, an absent sugar or fiber value contributing `0`. -/
theorem reconcile_consumed_totals (u : String) (goals : GoalsRow)
    (entries : List ConsumptionRow) (today now : ℤ) (store : List SnapshotRow)
    (d : ℤ) (e : ConsumptionRow) (he : e ∈ entries) (heu : e.user_id = u)
    (hed : e.consumed_date = d) (hwin : today - 90 ≤ d) :
    ∃ row, lookupSnapshot u d (createMissingSnapshots u goals entries today now store)
        = some row
      ∧ row.calories_consumed = ((dayEntriesFor u d entries).map (fun x => x.calories)).sum
      ∧ row.protein_consumed = ((dayEntriesFor u d entries).map (fun x => x.protein)).sum
      ∧ row.carbs_consumed = ((dayEntriesFor u d entries).map (fun x => x.carbs)).sum
      ∧ row.fat_consumed = ((dayEntriesFor u d entries).map (fun x => x.fat)).sum
      ∧ row.sugar_consumed = ((dayEntriesFor u d entries).map (fun x => x.sugar.getD 0)).sum
      ∧ row.fiber_consumed = ((dayEntriesFor u d entries).map (fun x => x.fiber.getD 0)).sum := by
  refine ⟨mkSnapshotRow u d goals (sumConsumed (dayEntriesFor u d entries)) now, ?_,
    ?_, ?_, ?_, ?_, ?_, ?_⟩
  · unfold createMissingSnapshots
    apply lookupSnapshot_foldl_upsert_mem u
      (fun x => mkSnapshotRow u x goals (sumConsumed (dayEntriesFor u x entries)) now)
      (fun _ => rfl) (fun _ => rfl)
    rw [jsSetUnique_mem]
    refine List.mem_map.mpr ⟨e, List.mem_filter.mpr ⟨he, ?_⟩, hed⟩
    simp only [decide_eq_true_eq]
    exact ⟨heu, hed ▸ hwin⟩
  all_goals rw [sumConsumed_fields]
  all_goals rfl

/-- Witness for the C6 theorem: two entries of user `"u"` on day `5`, one
with absent sugar and fiber, reconciled from an empty store. -/
theorem reconcile_consumed_totals_witness :
    ∃ row, lookupSnapshot userU 5
        (createMissingSnapshots userU goalsFirst [entryDay5, entryDay5b] 10 3 [])
        = some row
      ∧ row.calories_consumed
          = ((dayEntriesFor userU 5 [entryDay5, entryDay5b]).map (fun x => x.calories)).sum
      ∧ row.protein_consumed
          = ((dayEntriesFor userU 5 [entryDay5, entryDay5b]).map (fun x => x.protein)).sum
      ∧ row.carbs_consumed
          = ((dayEntriesFor userU 5 [entryDay5, entryDay5b]).map (fun x => x.carbs)).sum
      ∧ row.fat_consumed
          = ((dayEntriesFor userU 5 [entryDay5, entryDay5b]).map (fun x => x.fat)).sum
      ∧ row.sugar_consumed
          = ((dayEntriesFor userU 5 [entryDay5, entryDay5b]).map (fun x => x.sugar.getD 0)).sum
      ∧ row.fiber_consumed
          = ((dayEntriesFor userU 5 [entryDay5, entryDay5b]).map (fun x => x.fiber.getD 0)).sum :=
  reconcile_consumed_totals userU goalsFirst [entryDay5, entryDay5b] 10 3 [] 5 entryDay5
    (by simp) rfl rfl (by norm_num)

/-- C9: after the reconciliation pass runs its purge, every snapshot dated
strictly before `today - 90` is absent from the listed history; the purge
itself deletes nothing dated on or after `today - 90`. -/
theorem purge_expiry (u : String) (goals : GoalsRow) (entries : List ConsumptionRow)
    (today now : ℤ) (store : List SnapshotRow) (r : SnapshotRow) :
    (r.log_date < today - 90 →
        r ∉ listHistorySnapshots u (reconcileHistory u goals entries today now store))
      ∧ (r ∈ store → ¬r.log_date < today - 90 →
          r ∈ delete_old_nutrition_snapshots today store) := by
  constructor
  · intro hold hmem
    have hmem' : r ∈ reconcileHistory u goals entries today now store :=
      (List.mem_filter.mp hmem).1
    unfold reconcileHistory createMissingSnapshots at hmem'
    rcases mem_foldl_upsert _ _ _ _ hmem' with h | ⟨x, hx, hr⟩
    · have hkeep := (List.mem_filter.mp h).2
      simp only [delete_old_nutrition_snapshots] at hkeep ⊢
      rw [Bool.not_eq_eq_eq_not, Bool.not_true, decide_eq_false_iff_not] at hkeep
      exact hkeep hold
    · rw [jsSetUnique_mem] at hx
      rcases List.mem_map.mp hx with ⟨e, hef, hex⟩
      have hcond := (List.mem_filter.mp hef).2
      simp only [decide_eq_true_eq] at hcond
      have hrd : r.log_date = x := by rw [hr]; rfl
      rw [hrd, ← hex] at hold
      exact absurd hcond.2 (not_le.mpr hold)
  · intro hmem hnew
    unfold delete_old_nutrition_snapshots
    refine List.mem_filter.mpr ⟨hmem, ?_⟩
    simp [hnew]

/-- Witness for the C9 theorem: with today = day 100, the day-1 snapshot is
gone after the pass and the day-95 snapshot survives the purge. -/
theorem purge_expiry_witness :
    snapOld ∉ listHistorySnapshots userU
        (reconcileHistory userU goalsFirst [] 100 0 [snapOld, snapFresh])
      ∧ snapFresh ∈ delete_old_nutrition_snapshots 100 [snapOld, snapFresh] :=
  ⟨(purge_expiry userU goalsFirst [] 100 0 [snapOld, snapFresh] snapOld).1 (by norm_num [snapOld, mkSnapshotRow]),
   (purge_expiry userU goalsFirst [] 100 0 [snapOld, snapFresh] snapFresh).2 (by simp)
     (by norm_num [snapFresh, mkSnapshotRow])⟩

/-- C8 counterexample: at noon UTC of day 7 (`nowMs = 7·86400000 +
43200000`), a snapshot dated day 0 — exactly 7 days before today — is NOT
editable: `Math.ceil` of the elapsed 7.5 days is 8.  The claim's "a snapshot
dated exactly 7 days before today is editable" fails. -/
theorem canEdit_seven_day_cex :
    Int.ediv (7 * msPerDay + 43200000) msPerDay - 0 = 7
      ∧ canEdit (7 * msPerDay + 43200000) 0 = false := by
  constructor
  · norm_num [msPerDay]
  · have hval : ((7 * msPerDay + 43200000 - 0 * msPerDay : ℤ) : ℚ) / ((msPerDay : ℤ) : ℚ)
        = 15 / 2 := by
      norm_num [msPerDay]
    have hceil : ⌈(15 / 2 : ℚ)⌉ = 8 := by
      rw [Int.ceil_eq_iff]
      norm_num
    simp only [canEdit]
    rw [hval, hceil]
    decide

/-- C8 amended: the edit affordance is offered exactly when
`Math.ceil((now − UTC-midnight(date)) / 86400000) ≤ 7`; writing the current
instant as `dToday` whole days plus `t` milliseconds, a snapshot is editable
iff `dToday − dLog + (1 if t > 0 else 0) ≤ 7` — so at any instant strictly
after UTC midnight the editable window is the snapshot dates at most 6 days
before today, and a snapshot dated exactly 7 days back is editable only at
the exact midnight instant.  (The save path itself performs no window
check; only the Edit affordance is gated.) -/
theorem canEdit_ceil_window (dToday dLog t : ℤ) (h0 : 0 ≤ t) (h1 : t < msPerDay) :
    canEdit (dToday * msPerDay + t) dLog = true ↔
      dToday - dLog + (if 0 < t then 1 else 0) ≤ 7 := by
  simp only [canEdit, decide_eq_true_eq]
  have hms : (0 : ℚ) < (msPerDay : ℚ) := by norm_num [msPerDay]
  have hcast : ((dToday * msPerDay + t - dLog * msPerDay : ℤ) : ℚ) / (msPerDay : ℚ)
      = (t : ℚ) / (msPerDay : ℚ) + ((dToday - dLog : ℤ) : ℚ) := by
    field_simp
    ring
  rw [hcast, Int.ceil_add_int]
  have hceil : ⌈(t : ℚ) / (msPerDay : ℚ)⌉ = if 0 < t then 1 else 0 := by
    split
    case isTrue ht =>
      rw [Int.ceil_eq_iff]
      constructor
      · have htq : (0 : ℚ) < (t : ℚ) := by exact_mod_cast ht
        have hdiv := div_pos htq hms
        push_cast
        linarith
      · push_cast
        rw [div_le_one hms]
        exact_mod_cast h1.le
    case isFalse ht =>
      have ht0 : t = 0 := le_antisymm (not_lt.mp ht) h0
      simp [ht0]
  rw [hceil]
  generalize (if 0 < t then (1 : ℤ) else 0) = c
  omega

/-- Witness for the C8 theorem: one millisecond after UTC midnight of day
10, a snapshot dated day 4 (six days back) is editable. -/
theorem canEdit_ceil_window_witness : canEdit (10 * msPerDay + 1) 4 = true :=
  (canEdit_ceil_window 10 4 1 (by norm_num) (by norm_num [msPerDay])).mpr (by norm_num)

end CalorieTracker
